import Mathlib

/-!
Verification of the `mask` contract (src/src/contract.rs): a minimal
access-controlled message-forwarding CosmWasm contract.  The contract logic
(`init`, `handle` with `try_reflect` / `try_change_owner`, `query` with
`query_owner`) is embedded shallowly below.  The repository's `state.rs` and
`msg.rs` modules and the host-side store/API are not under `src/`; those
parts (the `State` record, the singleton `config` bucket with its
load/save/update semantics, and the message types) are modelled from the
spec, as indicated on each definition.
-/

namespace Mask

/-- Human-readable address form used in requests (cosmwasm `HumanAddr`). -/
abbrev HumanAddr := String

/-- Canonical (host-internal) address form (cosmwasm `CanonicalAddr`,
a byte vector), modelled as a list of bytes. -/
abbrev CanonicalAddr := List Nat

/-- An opaque outgoing message payload (cosmwasm `CosmosMsg`); the contract
passes it through unchanged, so its structure is irrelevant. -/
abbrev CosmosMsg := String

/-- Modelled from the spec: the sole persisted entity of `state.rs` (missing
from src/), the Owner Record holding the canonical owner address. -/
structure State where
  owner : CanonicalAddr
deriving Repr, DecidableEq

/-- Modelled from the spec: `msg.rs` (missing from src/) declares the init
payload as empty/trivial — no fields are consumed by `init`.  We carry
opaque bytes so that payload-independence is statable. -/
structure InitMsg where
  raw : List Nat
deriving Repr, DecidableEq

/-- The execute request union of `msg.rs`, as matched in `handle`. -/
inductive HandleMsg where
  | ReflectMsg (msg : CosmosMsg)
  | ChangeOwner (owner : HumanAddr)
deriving Repr, DecidableEq

/-- The query request union of `msg.rs`, as matched in `query`. -/
inductive QueryMsg where
  | GetOwner
deriving Repr, DecidableEq

/-- The query response record serialized by `query_owner`. -/
structure OwnerResponse where
  owner : HumanAddr
deriving Repr, DecidableEq

/-- The execute/init response (cosmwasm `Response`): outgoing messages,
an optional log string and optional auxiliary data bytes. -/
structure Response where
  messages : List CosmosMsg
  log : Option String
  data : Option (List Nat)
deriving Repr, DecidableEq

/-- `Response::default()`: no messages, no log, no data. -/
def Response.default : Response :=
  { messages := [], log := none, data := none }

/-- Authenticated message info from the host (`params.message`); `signer`
is the already-verified canonical identity of the caller. -/
structure MessageInfo where
  signer : CanonicalAddr
deriving Repr, DecidableEq

/-- Host-supplied per-call context (cosmwasm `Params`), restricted to the
fields the contract reads. -/
structure Params where
  message : MessageInfo
deriving Repr, DecidableEq

/-- Typed failures of the contract (cosmwasm `Error` kinds reachable from
this contract): `notFound` from a load of an absent record, `unauthorized`
from the signer gate, `addressConversion` from the host address
capabilities, `serialize` (with the failing kind) from the codec. -/
inductive ContractError where
  | notFound
  | unauthorized
  | addressConversion
  | serialize (kind : String)
deriving Repr, DecidableEq

/-- The host capabilities the contract uses (`deps.api` and the codec):
the two address conversions and the two fallible encodings, each returning
`none` on host-side failure. -/
structure Env where
  canonical_address : HumanAddr → Option CanonicalAddr
  human_address : CanonicalAddr → Option HumanAddr
  to_vec_state : State → Option (List Nat)
  to_vec_owner_response : OwnerResponse → Option (List Nat)

/-- The persistent store at the fixed `config` namespace key: at most one
Owner Record. -/
abbrev Store := Option State

/-- Modelled from the spec: `config(...).load()` of `state.rs` — fails
with `NotFound` if the store key is absent. -/
def load (store : Store) : Except ContractError State :=
  match store with
  | none => .error .notFound
  | some s => .ok s

/-- Modelled from the spec: `config(...).save(&state)` of `state.rs` —
serializes and writes the record to the fixed store key, failing with
`Serialize` on encoding failure and leaving the store untouched. -/
def save (env : Env) (s : State) : Except ContractError Store :=
  match env.to_vec_state s with
  | none => .error (.serialize "State")
  | some _ => .ok (some s)

/-- Modelled from the spec: `config(...).update(tx)` of `state.rs` — loads
the current record, applies `tx`, and saves the result only if `tx`
succeeds; on any failure the store is left untouched. -/
def update (env : Env) (store : Store)
    (tx : State → Except ContractError State) : Except ContractError Store :=
  match load store with
  | .error e => .error e
  | .ok s =>
    match tx s with
    | .error e => .error e
    | .ok s' => save env s'

/-- `init` (src/src/contract.rs lines 11-23): builds the Owner Record from
the signer, saves it, and returns the default (empty) response.  The init
payload is bound as `_msg` and never consumed.  The resulting store is
returned alongside the result; on failure the store is unchanged. -/
def init (env : Env) (store : Store) (params : Params) (_msg : InitMsg) :
    Store × Except ContractError Response :=
  let state : State := { owner := params.message.signer }
  match save env state with
  | .error e => (store, .error e)
  | .ok store' => (store', .ok Response.default)

/-- `try_reflect` (src/src/contract.rs lines 36-51): loads the record,
rejects a signer different from the owner with `Unauthorized`, otherwise
answers with exactly the input message and no log or data.  No write is
performed on any path. -/
def try_reflect (_env : Env) (store : Store) (params : Params)
    (msg : CosmosMsg) : Store × Except ContractError Response :=
  match load store with
  | .error e => (store, .error e)
  | .ok state =>
    if params.message.signer ≠ state.owner then
      (store, .error .unauthorized)
    else
      (store, .ok { messages := [msg], log := none, data := none })

/-- The transform closure passed to `update` by `try_change_owner`
(src/src/contract.rs lines 59-65): rejects a signer different from the
current owner with `Unauthorized`, canonicalizes the supplied address
(propagating the host's conversion failure as `AddressConversion`),
and replaces `owner`. -/
def change_owner_tx (env : Env) (params : Params) (owner : HumanAddr)
    (state : State) : Except ContractError State :=
  if params.message.signer ≠ state.owner then
    .error .unauthorized
  else
    match env.canonical_address owner with
    | none => .error .addressConversion
    | some c => .ok { state with owner := c }

/-- `try_change_owner` (src/src/contract.rs lines 53-67): runs `update`
with the `change_owner_tx` transform; returns the default response on
success, and leaves the store untouched on failure. -/
def try_change_owner (env : Env) (store : Store) (params : Params)
    (owner : HumanAddr) : Store × Except ContractError Response :=
  match update env store (change_owner_tx env params owner) with
  | .error e => (store, .error e)
  | .ok store' => (store', .ok Response.default)

/-- `handle` (src/src/contract.rs lines 25-34): dispatch over the execute
request union. -/
def handle (env : Env) (store : Store) (params : Params) (msg : HandleMsg) :
    Store × Except ContractError Response :=
  match msg with
  | .ReflectMsg m => try_reflect env store params m
  | .ChangeOwner owner => try_change_owner env store params owner

/-- `query_owner` (src/src/contract.rs lines 75-84): loads the record,
converts the stored canonical owner to human-readable form, and serializes
the `OwnerResponse`; read-only by type (it never returns a store). -/
def query_owner (env : Env) (store : Store) : Except ContractError (List Nat) :=
  match load store with
  | .error e => .error e
  | .ok state =>
    match env.human_address state.owner with
    | none => .error .addressConversion
    | some h =>
      match env.to_vec_owner_response { owner := h } with
      | none => .error (.serialize "OwnerResponse")
      | some bytes => .ok bytes

/-- `query` (src/src/contract.rs lines 69-73): dispatch over the query
request union. -/
def query (env : Env) (store : Store) (msg : QueryMsg) :
    Except ContractError (List Nat) :=
  match msg with
  | .GetOwner => query_owner env store

/-- `save` only ever succeeds with a populated store. -/
lemma save_ok_isSome (env : Env) (s : State) (st : Store)
    (h : save env s = .ok st) : st.isSome := by
  unfold save at h
  cases hv : env.to_vec_state s <;> simp [hv] at h
  simp [← h]

/-- `update` only ever succeeds with a populated store. -/
lemma update_ok_isSome (env : Env) (store : Store)
    (tx : State → Except ContractError State) (st : Store)
    (h : update env store tx = .ok st) : st.isSome := by
  unfold update at h
  cases hl : load store with
  | error e => simp [hl] at h
  | ok s =>
    simp only [hl] at h
    cases htx : tx s with
    | error e => simp [htx] at h
    | ok s' =>
      simp only [htx] at h
      exact save_ok_isSome env s' st h

/-- A concrete host environment used to instantiate hypotheses of the claim
theorems at concrete inputs: every capability succeeds, and the address
conversions round-trip on the addresses used. -/
def envA : Env where
  canonical_address _ := some [7]
  human_address _ := some "bob"
  to_vec_state _ := some [0]
  to_vec_owner_response _ := some [1]

/-- A concrete host environment whose address canonicalization fails. -/
def envB : Env where
  canonical_address _ := none
  human_address _ := some "bob"
  to_vec_state _ := some [0]
  to_vec_owner_response _ := some [1]

/-- C1: for every initialized state with owner `O`, executing either gated
operation (`ReflectMsg` or `ChangeOwner`) with an authenticated signer
different from `O` fails with `Unauthorized`, leaves the persisted store
unchanged, and produces no response (hence no outgoing messages). -/
theorem claim1_gated_ops_reject_nonowner (env : Env) (O signer : CanonicalAddr)
    (m : CosmosMsg) (new : HumanAddr) (h : signer ≠ O) :
    handle env (some ⟨O⟩) ⟨⟨signer⟩⟩ (.ReflectMsg m) =
      (some ⟨O⟩, .error .unauthorized) ∧
    handle env (some ⟨O⟩) ⟨⟨signer⟩⟩ (.ChangeOwner new) =
      (some ⟨O⟩, .error .unauthorized) := by
  constructor <;>
    simp [handle, try_reflect, try_change_owner, change_owner_tx, update,
      load, save, h]

/-- Witness for C1 at a concrete non-owner signer. -/
theorem claim1_witness :
    handle envA (some ⟨[1]⟩) ⟨⟨[2]⟩⟩ (.ReflectMsg "msg") =
      (some ⟨[1]⟩, .error .unauthorized) ∧
    handle envA (some ⟨[1]⟩) ⟨⟨[2]⟩⟩ (.ChangeOwner "bob") =
      (some ⟨[1]⟩, .error .unauthorized) :=
  claim1_gated_ops_reject_nonowner envA [1] [2] "msg" "bob" (by decide)

/-- C2: for every initialized state with owner `O` and every message payload
`m`, executing `ReflectMsg` with signer `O` succeeds with a response whose
messages list is exactly `[m]` and whose log and data are empty, and the
persisted store is unchanged. -/
theorem claim2_reflect_owner_forwards (env : Env) (O : CanonicalAddr)
    (m : CosmosMsg) :
    handle env (some ⟨O⟩) ⟨⟨O⟩⟩ (.ReflectMsg m) =
      (some ⟨O⟩, .ok { messages := [m], log := none, data := none }) := by
  simp [handle, try_reflect, load]

/-- C3: for every initialized state with owner `O` and target address `new`
whose canonicalization succeeds with canonical form `c` (with the store
write and the host conversions succeeding, the reverse conversion returning
`new`), executing `ChangeOwner new` with signer `O` succeeds with the
default (empty) response, the stored owner becomes `c`, and a subsequent
`GetOwner` query returns the serialized `OwnerResponse` carrying `new`. -/
theorem claim3_change_owner_then_query (env : Env) (O c : CanonicalAddr)
    (new : HumanAddr) (bs out : List Nat)
    (hc : env.canonical_address new = some c)
    (hs : env.to_vec_state ⟨c⟩ = some bs)
    (hh : env.human_address c = some new)
    (ht : env.to_vec_owner_response ⟨new⟩ = some out) :
    handle env (some ⟨O⟩) ⟨⟨O⟩⟩ (.ChangeOwner new) =
      (some ⟨c⟩, .ok Response.default) ∧
    query env (some ⟨c⟩) .GetOwner = .ok out := by
  constructor
  · simp [handle, try_change_owner, change_owner_tx, update, load, save,
      hc, hs]
  · simp [query, query_owner, load, hh, ht]

/-- Witness for C3 at concrete inputs with round-tripping conversions. -/
theorem claim3_witness :
    handle envA (some ⟨[1]⟩) ⟨⟨[1]⟩⟩ (.ChangeOwner "bob") =
      (some ⟨[7]⟩, .ok Response.default) ∧
    query envA (some ⟨[7]⟩) .GetOwner = .ok [1] :=
  claim3_change_owner_then_query envA [1] [7] "bob" [0] [1]
    rfl rfl rfl rfl

/-- C4: for every initialized state with owner `O`, if `ChangeOwner` is
executed with signer `O` but the host canonicalization of the target fails,
the call fails with `AddressConversion` and the stored owner remains `O`. -/
theorem claim4_conversion_failure_no_write (env : Env) (O : CanonicalAddr)
    (new : HumanAddr) (hc : env.canonical_address new = none) :
    handle env (some ⟨O⟩) ⟨⟨O⟩⟩ (.ChangeOwner new) =
      (some ⟨O⟩, .error .addressConversion) := by
  simp [handle, try_change_owner, change_owner_tx, update, load, save, hc]

/-- Witness for C4 with a host whose canonicalization fails. -/
theorem claim4_witness :
    handle envB (some ⟨[1]⟩) ⟨⟨[1]⟩⟩ (.ChangeOwner "bob") =
      (some ⟨[1]⟩, .error .addressConversion) :=
  claim4_conversion_failure_no_write envB [1] "bob" rfl

/-- C5: for every signer identity `S`, `init` called with signer `S`
succeeds whenever the store write succeeds, stores an owner record with
`owner = S`, and returns the default response (no messages, no log,
no data), from any prior store. -/
theorem claim5_init_stores_signer (env : Env) (store : Store)
    (S : CanonicalAddr) (m : InitMsg) (bs : List Nat)
    (hs : env.to_vec_state ⟨S⟩ = some bs) :
    init env store ⟨⟨S⟩⟩ m = (some ⟨S⟩, .ok Response.default) := by
  simp [init, save, hs]

/-- Witness for C5 at a concrete signer on an empty store. -/
theorem claim5_witness :
    init envA none ⟨⟨[3]⟩⟩ ⟨[]⟩ = (some ⟨[3]⟩, .ok Response.default) :=
  claim5_init_stores_signer envA none [3] ⟨[]⟩ [0] rfl

/-- C6: on a store in which no owner record has been saved, the `GetOwner`
query and both execute operations fail with `NotFound`, for every signer
and every request payload, leaving the store empty. -/
theorem claim6_uninitialized_not_found (env : Env) (params : Params)
    (hm : HandleMsg) :
    query env none .GetOwner = .error .notFound ∧
    handle env none params hm = (none, .error .notFound) := by
  refine ⟨by simp [query, query_owner, load], ?_⟩
  cases hm <;>
    simp [handle, try_reflect, try_change_owner, change_owner_tx, update,
      load]

/-- C7: for every initialized state with stored canonical owner `c`, the
`GetOwner` query returns the serialized encoding of the `OwnerResponse`
carrying the human-readable form of `c`, fails with `AddressConversion`
when the reverse conversion fails, fails with `Serialize` (kind
"OwnerResponse") when response encoding fails, and fails with `NotFound`
when the record is absent; the query is read-only by its type, so the
store is unchanged in all cases. -/
theorem claim7_query_owner_cases (env : Env) (c : CanonicalAddr) :
    query env (some ⟨c⟩) .GetOwner =
      (match env.human_address c with
       | none => .error .addressConversion
       | some h =>
         match env.to_vec_owner_response ⟨h⟩ with
         | none => .error (.serialize "OwnerResponse")
         | some bytes => .ok bytes) ∧
    query env none .GetOwner = .error .notFound := by
  constructor
  · simp [query, query_owner, load]
  · simp [query, query_owner, load]

/-- C8: a successful `init` always leaves a populated store, and every
execute operation, successful or failed, maps a populated store to a
populated store; the query takes the store read-only, so once `init` has
succeeded the owner record is never absent. -/
theorem claim8_record_never_absent (env : Env) (store : Store)
    (params : Params) :
    (∀ (m : InitMsg) (r : Response),
      (init env store params m).2 = .ok r → (init env store params m).1.isSome) ∧
    (∀ hm : HandleMsg,
      store.isSome → (handle env store params hm).1.isSome) := by
  constructor
  · intro m r h
    unfold init at h ⊢
    cases hsv : save env ⟨params.message.signer⟩ with
    | error e => simp [hsv] at h
    | ok st => simpa [hsv] using save_ok_isSome env _ st hsv
  · intro hm hsome
    cases hm with
    | ReflectMsg m =>
      unfold handle try_reflect
      cases hl : load store with
      | error e => simp [hl, hsome]
      | ok st =>
        by_cases hne : params.message.signer ≠ st.owner <;>
          simp [hl, hne, hsome]
    | ChangeOwner new =>
      unfold handle try_change_owner
      cases hu : update env store (change_owner_tx env params new) with
      | error e => simp [hu, hsome]
      | ok st' =>
        simpa [hu] using update_ok_isSome env store _ st' hu

/-- Witness for C8: concrete successful `init` and a concrete execute call
on a populated store. -/
theorem claim8_witness :
    (Mask.init envA none ⟨⟨[3]⟩⟩ ⟨[]⟩).1.isSome ∧
    (Mask.handle envA (some ⟨[1]⟩) ⟨⟨[2]⟩⟩ (.ReflectMsg "m")).1.isSome :=
  ⟨(claim8_record_never_absent envA none ⟨⟨[3]⟩⟩).1 ⟨[]⟩ Response.default rfl,
   (claim8_record_never_absent envA (some ⟨[1]⟩) ⟨⟨[2]⟩⟩).2
     (.ReflectMsg "m") rfl⟩

/-- C9: the result of `init` — both the returned response and the resulting
store — does not depend on the init payload: any two payloads give
identical results. -/
theorem claim9_init_payload_independent (env : Env) (store : Store)
    (params : Params) (m₁ m₂ : InitMsg) :
    init env store params m₁ = init env store params m₂ := rfl

/-- C10: re-running `init` on an already-initialized store is not guarded:
it succeeds (when the store write succeeds) and unconditionally overwrites
the owner record with the new call's signer, whoever the previous owner
was. -/
theorem claim10_reinit_overwrites (env : Env) (O S : CanonicalAddr)
    (m : InitMsg) (bs : List Nat)
    (hs : env.to_vec_state ⟨S⟩ = some bs) :
    init env (some ⟨O⟩) ⟨⟨S⟩⟩ m = (some ⟨S⟩, .ok Response.default) := by
  simp [init, save, hs]

/-- Witness for C10: a second `init` by a different signer overwrites the
record of the first owner. -/
theorem claim10_witness :
    init envA (some ⟨[1]⟩) ⟨⟨[9]⟩⟩ ⟨[]⟩ = (some ⟨[9]⟩, .ok Response.default) :=
  claim10_reinit_overwrites envA [1] [9] ⟨[]⟩ [0] rfl

end Mask
